import Mathlib

/-!
Shallow embedding of the firmware in `attiny/main.cpp` and `stm32/main.cpp`
(repository `compare-attiny-stm32`): the rate-control state machine shared by
the two builds.  Machine integers are modelled as `Nat` with explicit
reduction modulo `2^16` (uint16_t) or `2^32` (uint32_t) at the points where
the C code performs a narrowing cast or where unsigned wrap-around can occur.
-/

/-- `#define BPM_MIN 40` (both builds). -/
def BPM_MIN : Nat := 40

/-- `#define BPM_MAX 155` (both builds). -/
def BPM_MAX : Nat := 155

/-- `#define BPM_DEFAULT 100` (both builds). -/
def BPM_DEFAULT : Nat := 100

/-- `#define BPM_STEP 5` (both builds). -/
def BPM_STEP : Nat := 5

/-- Modulus of `uint16_t`. -/
def U16 : Nat := 65536

/-- Modulus of `uint32_t`. -/
def U32 : Nat := 4294967296

/-- `attiny/main.cpp` lines 64-70:
`uint16_t calculate_rtc_period(uint16_t bpm)`:
`uint32_t period_ms = 60000UL / bpm; return (uint16_t)(period_ms * 1024 / 1000);`
C unsigned division truncates toward zero, matching `Nat` division; the final
narrowing cast to `uint16_t` is the reduction modulo `U16`. -/
def calculate_rtc_period (bpm : Nat) : Nat :=
  let period_ms := 60000 / bpm
  (period_ms * 1024 / 1000) % U16

/-- `stm32/main.cpp` lines 96-107:
`uint16_t calculate_wakeup_interval_ms(uint16_t bpm)`:
`uint32_t period_ms = 60000UL / bpm; if (period_ms < 1000) return period_ms;
else return 1000;`  (`period_ms < 1000 < 2^16`, so the narrowing cast on the
first branch is exact). -/
def calculate_wakeup_interval_ms (bpm : Nat) : Nat :=
  let period_ms := 60000 / bpm
  if period_ms < 1000 then period_ms else 1000

/-- `stm32/main.cpp` lines 152-165 and 196-207 (`RTC_Init` / `RTC_UpdateWakeup`):
the (WUCKSEL, WUTR) pair programmed into the wake-up timer for a requested
interval `w` ms.  `w >= 1000`: ck_spre 1 Hz (`WUCKSEL = 4`), `WUTR = 0`
(wake every second); otherwise ck_spre/16 (`WUCKSEL = 5`) with
`ticks = (w * 16) / 1000`, forced to at least 1, and `WUTR = ticks - 1`. -/
def stm32_wutr_config (w : Nat) : Nat × Nat :=
  if w ≥ 1000 then
    (4, 0)
  else
    let ticks := w * 16 / 1000
    let ticks := if ticks < 1 then 1 else ticks
    (5, ticks - 1)

/-- Rate-increase step, `attiny/main.cpp` lines 180-187 and
`stm32/main.cpp` lines 343-349 (identical logic in both builds):
```
if (current_bpm < BPM_MAX) {
    current_bpm += BPM_STEP;
    if (current_bpm > BPM_MAX) { current_bpm = BPM_MAX; }
    reconfigure_rtc = true;
}
```
Returns (new bpm, whether the guarded block ran and set `reconfigure_rtc`,
whether the secondary clamp assignment `current_bpm = BPM_MAX` executed).
`current_bpm` is `uint16_t`, so the addition is reduced modulo `U16`. -/
def rate_inc (b : Nat) : Nat × Bool × Bool :=
  if b < BPM_MAX then
    let b1 := (b + BPM_STEP) % U16
    if b1 > BPM_MAX then (BPM_MAX, true, true) else (b1, true, false)
  else (b, false, false)

/-- Rate-decrease step, `attiny/main.cpp` lines 202-208 and
`stm32/main.cpp` lines 312-318 (identical logic in both builds):
```
if (current_bpm > BPM_MIN) {
    current_bpm -= BPM_STEP;
    if (current_bpm < BPM_MIN) { current_bpm = BPM_MIN; }
    reconfigure_rtc = true;
}
```
The guard `b > BPM_MIN` makes the `uint16_t` subtraction borrow-free, so
`Nat` truncated subtraction is exact here. -/
def rate_dec (b : Nat) : Nat × Bool × Bool :=
  if b > BPM_MIN then
    let b1 := b - BPM_STEP
    if b1 < BPM_MIN then (BPM_MIN, true, true) else (b1, true, false)
  else (b, false, false)

/-- New BPM after one increase-button press reaches the rate logic. -/
def bpm_inc (b : Nat) : Nat := (rate_inc b).1

/-- New BPM after one decrease-button press reaches the rate logic. -/
def bpm_dec (b : Nat) : Nat := (rate_dec b).1

/-- A rate-adjust event delivered to the controller: increase or decrease. -/
inductive RateEv
  | inc
  | dec
deriving DecidableEq, Repr

/-- Folds a sequence of rate events over a starting BPM, recording whether any
secondary clamp assignment (third component of `rate_inc` / `rate_dec`)
ever executed. -/
def rate_run (b : Nat) : List RateEv → Nat × Bool
  | [] => (b, false)
  | e :: rest =>
    let st := match e with
      | RateEv.inc => rate_inc b
      | RateEv.dec => rate_dec b
    let r := rate_run st.1 rest
    (r.1, st.2.2 || r.2)

/-- Unfolding of `calculate_wakeup_interval_ms` with the local variable
substituted. -/
theorem calculate_wakeup_interval_ms_eq (bpm : Nat) :
    calculate_wakeup_interval_ms bpm =
      if 60000 / bpm < 1000 then 60000 / bpm else 1000 := rfl

/-- Unfolding of `calculate_rtc_period` with the local variable substituted. -/
theorem calculate_rtc_period_eq (bpm : Nat) :
    calculate_rtc_period bpm = (60000 / bpm * 1024 / 1000) % U16 := rfl

/-- Unsigned 32-bit subtraction `(m - l)` of two wrapped counters recovers the
true distance as long as that distance fits in the word. -/
theorem u32_sub_mod (M L : Nat) (hle : L ≤ M) (hlt : M - L < U32) :
    (M % U32 + U32 - L % U32) % U32 = M - L := by
  unfold U32 at *
  omega

/-- Global state of the STM32 build (`stm32/main.cpp` lines 37-48 plus the
RTC wake-up registers programmed in `RTC_Init`/`RTC_UpdateWakeup`).
All counters are `uint32_t`, `current_bpm` and `activation_period_ms` are
`uint16_t`; the model keeps them as `Nat` and reduces at each write that can
wrap. -/
structure Stm32State where
  current_bpm : Nat
  activation_period_ms : Nat
  millis_counter : Nat
  last_activation_time : Nat
  activation_flag : Bool
  reconfigure_rtc : Bool
  wucksel : Nat
  wutr : Nat
  button_inc_last : Nat
  button_dec_last : Nat
  button3_last : Nat
deriving DecidableEq, Repr

/-- State of the STM32 build right after `RTC_Init` ran with BPM `bpm`
(`stm32/main.cpp` lines 110-180): counters at zero, no pending flags,
`activation_period_ms = 60000 / current_bpm` (a `uint16_t` store), wake-up
registers per `stm32_wutr_config`. -/
def stm32_rtc_state0 (bpm : Nat) : Stm32State :=
  let cfg := stm32_wutr_config (calculate_wakeup_interval_ms bpm)
  { current_bpm := bpm
    activation_period_ms := (60000 / bpm) % U16
    millis_counter := 0
    last_activation_time := 0
    activation_flag := false
    reconfigure_rtc := false
    wucksel := cfg.1
    wutr := cfg.2
    button_inc_last := 0
    button_dec_last := 0
    button3_last := 0 }

/-- `stm32/main.cpp` lines 281-299, `RTC_IRQHandler` (with the wake-up flag
set): recomputes `wake_interval_ms = calculate_wakeup_interval_ms(current_bpm)`,
advances `millis_counter` by it (uint32 wrap), and if
`millis_counter - last_activation_time >= activation_period_ms` (uint32
subtraction) records an activation and resets `last_activation_time` to the
new `millis_counter`.  The returned `Bool` instruments which branch ran
("this wake tick marked an activation"). -/
def stm32_rtc_irq (s : Stm32State) : Stm32State × Bool :=
  let w := calculate_wakeup_interval_ms s.current_bpm
  let m := (s.millis_counter + w) % U32
  if (m + U32 - s.last_activation_time) % U32 ≥ s.activation_period_ms then
    ({ s with millis_counter := m, last_activation_time := m,
              activation_flag := true }, true)
  else
    ({ s with millis_counter := m }, false)

/-- `n` consecutive RTC wake-up interrupts from state `s`. -/
def stm32_rtc_run (s : Stm32State) : Nat → Stm32State
  | 0 => s
  | n + 1 => (stm32_rtc_irq (stm32_rtc_run s n)).1

/-- Whether wake tick number `n + 1` (the interrupt applied after `n` earlier
ticks) marks an activation. -/
def stm32_tick_fires (s : Stm32State) (n : Nat) : Bool :=
  (stm32_rtc_irq (stm32_rtc_run s n)).2

/-- Modelled from the spec: the coarse-mode accumulator (spec section 4.1,
`on_wake_tick`): accumulated elapsed time since the last activation, after `n`
ticks of `w` ms against an activation period of `p` ms; a tick whose
accumulated elapsed time reaches `p` fires and resets the accumulator. -/
def coarse_acc (w p : Nat) : Nat → Nat
  | 0 => 0
  | n + 1 =>
    if coarse_acc w p n + w ≥ p then 0 else coarse_acc w p n + w

/-- Successor equation of `coarse_acc`. -/
theorem coarse_acc_succ (w p n : Nat) :
    coarse_acc w p (n + 1) =
      if coarse_acc w p n + w ≥ p then 0 else coarse_acc w p n + w := rfl

/-- The accumulator stays strictly below the period. -/
theorem coarse_acc_lt (w p : Nat) (hp : 0 < p) : ∀ n, coarse_acc w p n < p := by
  intro n
  induction n with
  | zero => simpa [coarse_acc] using hp
  | succ n ih =>
    unfold coarse_acc
    split
    · exact hp
    · omega

/-- One RTC wake-up interrupt at a state whose wrapped counters represent the
true values `M` (millis) and `L` (last activation), with the true distance
below the activation period: the handler computes the true elapsed distance
and branches on it. -/
theorem stm32_rtc_irq_tracked (s : Stm32State) (M L : Nat)
    (hbpm : 40 ≤ s.current_bpm)
    (hap : s.activation_period_ms = 60000 / s.current_bpm)
    (hM : s.millis_counter = M % U32)
    (hL : s.last_activation_time = L % U32)
    (hle : L ≤ M) (hd : M - L < 60000 / s.current_bpm) :
    (stm32_rtc_irq s).2 =
      decide (M + calculate_wakeup_interval_ms s.current_bpm - L ≥
        60000 / s.current_bpm) ∧
    (stm32_rtc_irq s).1.millis_counter =
      (M + calculate_wakeup_interval_ms s.current_bpm) % U32 ∧
    ((stm32_rtc_irq s).2 = true →
      (stm32_rtc_irq s).1.last_activation_time =
        (M + calculate_wakeup_interval_ms s.current_bpm) % U32) ∧
    ((stm32_rtc_irq s).2 = false →
      (stm32_rtc_irq s).1.last_activation_time = L % U32) ∧
    (stm32_rtc_irq s).1.current_bpm = s.current_bpm ∧
    (stm32_rtc_irq s).1.activation_period_ms = s.activation_period_ms := by
  have hple : 60000 / s.current_bpm ≤ 1500 := by
    have : 60000 / s.current_bpm ≤ 60000 / 40 :=
      Nat.div_le_div_left hbpm (by omega)
    omega
  have hw_le : calculate_wakeup_interval_ms s.current_bpm ≤ 1000 := by
    rw [calculate_wakeup_interval_ms_eq]
    split <;> omega
  have hm : (s.millis_counter + calculate_wakeup_interval_ms s.current_bpm) %
      U32 = (M + calculate_wakeup_interval_ms s.current_bpm) % U32 := by
    rw [hM]
    unfold U32
    omega
  have hdiff : ((M + calculate_wakeup_interval_ms s.current_bpm) % U32 + U32 -
      L % U32) % U32 = M + calculate_wakeup_interval_ms s.current_bpm - L := by
    apply u32_sub_mod
    · omega
    · unfold U32
      omega
  simp only [stm32_rtc_irq, hm, hL, hdiff, hap]
  by_cases hfire :
      M + calculate_wakeup_interval_ms s.current_bpm - L ≥
        60000 / s.current_bpm
  · simp [hfire]
  · simp [hfire]

/-- Along the run of RTC wake-up interrupts from `stm32_rtc_state0 bpm`, the
wrapped uint32 counters track the true elapsed time `w * n` and the spec-side
accumulator `coarse_acc`. -/
theorem stm32_run_inv (bpm : Nat) (h1 : 40 ≤ bpm) (h2 : bpm ≤ 155) (n : Nat) :
    (stm32_rtc_run (stm32_rtc_state0 bpm) n).current_bpm = bpm ∧
    (stm32_rtc_run (stm32_rtc_state0 bpm) n).activation_period_ms =
      60000 / bpm ∧
    (stm32_rtc_run (stm32_rtc_state0 bpm) n).millis_counter =
      (calculate_wakeup_interval_ms bpm * n) % U32 ∧
    (stm32_rtc_run (stm32_rtc_state0 bpm) n).last_activation_time =
      (calculate_wakeup_interval_ms bpm * n -
        coarse_acc (calculate_wakeup_interval_ms bpm) (60000 / bpm) n) % U32 ∧
    coarse_acc (calculate_wakeup_interval_ms bpm) (60000 / bpm) n ≤
      calculate_wakeup_interval_ms bpm * n := by
  have hpU : 60000 / bpm < U16 := by
    have : 60000 / bpm ≤ 60000 / 40 := Nat.div_le_div_left h1 (by omega)
    unfold U16
    omega
  have hp0 : 0 < 60000 / bpm := by
    have : 60000 / 155 ≤ 60000 / bpm := Nat.div_le_div_left h2 (by omega)
    omega
  have hacc_lt := coarse_acc_lt (calculate_wakeup_interval_ms bpm)
    (60000 / bpm) hp0
  induction n with
  | zero =>
    refine ⟨rfl, ?_, ?_, ?_, ?_⟩
    · simp [stm32_rtc_run, stm32_rtc_state0, Nat.mod_eq_of_lt hpU]
    · simp [stm32_rtc_run, stm32_rtc_state0]
    · simp [stm32_rtc_run, stm32_rtc_state0, coarse_acc]
    · simp [coarse_acc]
  | succ n ih =>
    obtain ⟨hb, hap, hmil, hlast, hle⟩ := ih
    have htr := stm32_rtc_irq_tracked (stm32_rtc_run (stm32_rtc_state0 bpm) n)
      (calculate_wakeup_interval_ms bpm * n)
      (calculate_wakeup_interval_ms bpm * n -
        coarse_acc (calculate_wakeup_interval_ms bpm) (60000 / bpm) n)
      (by rw [hb]; exact h1) (by rw [hap, hb]) hmil hlast (by omega)
      (by rw [hb]; have := hacc_lt n; omega)
    rw [hb] at htr
    obtain ⟨htf, htm, htlt, htlf, htb, hta⟩ := htr
    have hrun : stm32_rtc_run (stm32_rtc_state0 bpm) (n + 1) =
        (stm32_rtc_irq (stm32_rtc_run (stm32_rtc_state0 bpm) n)).1 := rfl
    have hsum : calculate_wakeup_interval_ms bpm * n +
        calculate_wakeup_interval_ms bpm =
        calculate_wakeup_interval_ms bpm * (n + 1) := by ring
    have harg : calculate_wakeup_interval_ms bpm * n +
        calculate_wakeup_interval_ms bpm -
        (calculate_wakeup_interval_ms bpm * n -
          coarse_acc (calculate_wakeup_interval_ms bpm) (60000 / bpm) n) =
        coarse_acc (calculate_wakeup_interval_ms bpm) (60000 / bpm) n +
          calculate_wakeup_interval_ms bpm := by
      omega
    rw [harg] at htf
    refine ⟨by rw [hrun, htb], by rw [hrun, hta, hap], ?_, ?_, ?_⟩
    · rw [hrun, htm, hsum]
    · rw [hrun]
      by_cases hc : coarse_acc (calculate_wakeup_interval_ms bpm)
          (60000 / bpm) n + calculate_wakeup_interval_ms bpm ≥ 60000 / bpm
      · have hft : (stm32_rtc_irq (stm32_rtc_run (stm32_rtc_state0 bpm) n)).2 =
            true := by rw [htf]; exact decide_eq_true hc
        have hacc1 : coarse_acc (calculate_wakeup_interval_ms bpm)
            (60000 / bpm) (n + 1) = 0 := by
          rw [coarse_acc_succ, if_pos hc]
        rw [htlt hft, hacc1, Nat.sub_zero, hsum]
      · have hff : (stm32_rtc_irq (stm32_rtc_run (stm32_rtc_state0 bpm) n)).2 =
            false := by rw [htf]; exact decide_eq_false hc
        have hacc1 : coarse_acc (calculate_wakeup_interval_ms bpm)
            (60000 / bpm) (n + 1) =
            coarse_acc (calculate_wakeup_interval_ms bpm) (60000 / bpm) n +
              calculate_wakeup_interval_ms bpm := by
          rw [coarse_acc_succ, if_neg hc]
        rw [htlf hff, hacc1]
        congr 1
        omega
    · rw [coarse_acc_succ]
      split
      · omega
      · omega

/-- Tick `n + 1` of the RTC wake-up run marks an activation exactly when the
spec-side accumulated elapsed time (`coarse_acc` plus this tick's wake
interval) reaches the activation period `60000 / bpm`. -/
theorem stm32_fires_acc (bpm : Nat) (h1 : 40 ≤ bpm) (h2 : bpm ≤ 155) (n : Nat) :
    stm32_tick_fires (stm32_rtc_state0 bpm) n =
      decide (coarse_acc (calculate_wakeup_interval_ms bpm) (60000 / bpm) n +
        calculate_wakeup_interval_ms bpm ≥ 60000 / bpm) := by
  have hp0 : 0 < 60000 / bpm := by
    have : 60000 / 155 ≤ 60000 / bpm := Nat.div_le_div_left h2 (by omega)
    omega
  have hacc_lt := coarse_acc_lt (calculate_wakeup_interval_ms bpm)
    (60000 / bpm) hp0
  obtain ⟨hb, hap, hmil, hlast, hle⟩ := stm32_run_inv bpm h1 h2 n
  have htr := stm32_rtc_irq_tracked (stm32_rtc_run (stm32_rtc_state0 bpm) n)
    (calculate_wakeup_interval_ms bpm * n)
    (calculate_wakeup_interval_ms bpm * n -
      coarse_acc (calculate_wakeup_interval_ms bpm) (60000 / bpm) n)
    (by rw [hb]; exact h1) (by rw [hap, hb]) hmil hlast (by omega)
    (by rw [hb]; have := hacc_lt n; omega)
  rw [hb] at htr
  unfold stm32_tick_fires
  rw [htr.1]
  congr 1
  simp only [ge_iff_le, eq_iff_iff]
  omega

/-- `stm32/main.cpp` lines 334-352, `EXTI4_15_IRQHandler` (increase button,
PC13/EXTI13).  `pending` models the `EXTI->PR & EXTI_PR_PIF13` test.  The
fast-path debounce compares `millis_counter - button_inc_last_interrupt_time`
(uint32 subtraction) against `DEBOUNCE_DELAY_MS = 200`. -/
def stm32_exti13_inc (s : Stm32State) (pending : Bool) : Stm32State :=
  if pending then
    if (s.millis_counter + U32 - s.button_inc_last) % U32 > 200 then
      let s1 := { s with button_inc_last := s.millis_counter }
      if s1.current_bpm < BPM_MAX then
        let b1 := (s1.current_bpm + BPM_STEP) % U16
        let b2 := if b1 > BPM_MAX then BPM_MAX else b1
        { s1 with current_bpm := b2, reconfigure_rtc := true }
      else s1
    else s
  else s

/-- `stm32/main.cpp` lines 305-320, `EXTI0_1_IRQHandler`, PB0/EXTI0 branch
(decrease button), fast-path debounce as in `stm32_exti13_inc`. -/
def stm32_exti0_dec (s : Stm32State) (pending : Bool) : Stm32State :=
  if pending then
    if (s.millis_counter + U32 - s.button_dec_last) % U32 > 200 then
      let s1 := { s with button_dec_last := s.millis_counter }
      if s1.current_bpm > BPM_MIN then
        let b1 := s1.current_bpm - BPM_STEP
        let b2 := if b1 < BPM_MIN then BPM_MIN else b1
        { s1 with current_bpm := b2, reconfigure_rtc := true }
      else s1
    else s
  else s

/-- `stm32/main.cpp` lines 322-330, `EXTI0_1_IRQHandler`, PB1/EXTI1 branch
(reserved button 3): on a debounce-accepted edge it only refreshes
`button3_last_interrupt_time`; the body is reserved/empty. -/
def stm32_exti1_b3 (s : Stm32State) (pending : Bool) : Stm32State :=
  if pending then
    if (s.millis_counter + U32 - s.button3_last) % U32 > 200 then
      { s with button3_last := s.millis_counter }
    else s
  else s

/-- `stm32/main.cpp` lines 183-217, `RTC_UpdateWakeup`: recompute the wake
interval and `activation_period_ms = 60000 / current_bpm` (uint16 store),
reprogram WUCKSEL/WUTR, and reset `last_activation_time = millis_counter`. -/
def stm32_rtc_update (s : Stm32State) : Stm32State :=
  let w := calculate_wakeup_interval_ms s.current_bpm
  let ap := (60000 / s.current_bpm) % U16
  let cfg := stm32_wutr_config w
  { s with activation_period_ms := ap,
           wucksel := cfg.1,
           wutr := cfg.2,
           last_activation_time := s.millis_counter }

/-- `stm32/main.cpp` lines 368-382, one iteration of `main`'s `while (1)`
body up to (and not including) `enter_stop_mode()`: drain
`reconfigure_rtc` into `RTC_UpdateWakeup`, then drain `activation_flag`
into `activate_output` (which touches only the output pin). -/
def stm32_loop_iter (s : Stm32State) : Stm32State :=
  let s1 := if s.reconfigure_rtc then
      stm32_rtc_update { s with reconfigure_rtc := false }
    else s
  if s1.activation_flag then { s1 with activation_flag := false } else s1

/-- One main-loop cycle of the STM32 build under the one-drain-per-iteration
event model: the pending EXTI interrupts (increase, decrease, button 3) are
delivered, then the loop body runs up to the sleep call. -/
def stm32_cycle (s : Stm32State) (pinc pdec pb3 : Bool) : Stm32State :=
  stm32_loop_iter (stm32_exti1_b3 (stm32_exti0_dec
    (stm32_exti13_inc s pinc) pdec) pb3)

/-- Global state of the ATTiny build (`attiny/main.cpp` lines 47-61 plus the
programmed RTC period register `RTC.PER`).  `current_bpm` and
`activation_period_ms` are `uint16_t`, `rtc_counter` is `uint32_t`. -/
structure AttinyState where
  current_bpm : Nat
  activation_period_ms : Nat
  rtc_per : Nat
  activation_flag : Bool
  rtc_counter : Nat
  reconfigure_rtc : Bool
  button_inc_pressed : Bool
  button_dec_pressed : Bool
  button3_pressed : Bool
deriving DecidableEq, Repr

/-- `attiny/main.cpp` lines 147-151, `ISR(RTC_CNT_vect)`: every RTC overflow
(wake tick) unconditionally marks an activation and counts the period. -/
def attiny_rtc_isr (s : AttinyState) : AttinyState :=
  { s with activation_flag := true,
           rtc_counter := (s.rtc_counter + 1) % U32 }

/-- `attiny/main.cpp` lines 175-194: increase-button branch of
`process_button_presses`.  `held` is the pin level sampled after the 50 ms
settle delay (`true` if the pin still reads low, i.e. pressed).  The
returned `Nat` instruments how many times the confirmed-press rate-adjust
step (lines 180-193) executed. -/
def attiny_process_inc (s : AttinyState) (held : Bool) : AttinyState × Nat :=
  if s.button_inc_pressed then
    let s1 := { s with button_inc_pressed := false }
    if held then
      if s1.current_bpm < BPM_MAX then
        let b1 := (s1.current_bpm + BPM_STEP) % U16
        let b2 := if b1 > BPM_MAX then BPM_MAX else b1
        ({ s1 with current_bpm := b2, reconfigure_rtc := true }, 1)
      else (s1, 1)
    else (s1, 0)
  else (s, 0)

/-- `attiny/main.cpp` lines 196-215: decrease-button branch of
`process_button_presses`, mirror of `attiny_process_inc`. -/
def attiny_process_dec (s : AttinyState) (held : Bool) : AttinyState × Nat :=
  if s.button_dec_pressed then
    let s1 := { s with button_dec_pressed := false }
    if held then
      if s1.current_bpm > BPM_MIN then
        let b1 := s1.current_bpm - BPM_STEP
        let b2 := if b1 < BPM_MIN then BPM_MIN else b1
        ({ s1 with current_bpm := b2, reconfigure_rtc := true }, 1)
      else (s1, 1)
    else (s1, 0)
  else (s, 0)

/-- `attiny/main.cpp` lines 217-231: reserved button-3 branch of
`process_button_presses`: clears the raw flag, and whether or not the press
is confirmed ("Reserved for future functionality"), changes nothing else. -/
def attiny_process_b3 (s : AttinyState) (held : Bool) : AttinyState :=
  if s.button3_pressed then
    let s1 := { s with button3_pressed := false }
    if held then s1 else s1
  else s

/-- `attiny/main.cpp` lines 174-232, `process_button_presses`: the three
button branches in program order.  `hinc`/`hdec`/`hb3` are the pin levels
sampled after each 50 ms settle delay.  The `Nat` counts rate-adjust
invocations across the call. -/
def attiny_process_button_presses (s : AttinyState)
    (hinc hdec hb3 : Bool) : AttinyState × Nat :=
  let r1 := attiny_process_inc s hinc
  let r2 := attiny_process_dec r1.1 hdec
  (attiny_process_b3 r2.1 hb3, r1.2 + r2.2)

/-- `attiny/main.cpp` lines 93-104, `update_rtc_period`: reprogram
`RTC.PER = calculate_rtc_period(current_bpm)` and refresh
`activation_period_ms = 60000 / current_bpm` (uint16 store). -/
def attiny_update_rtc_period (s : AttinyState) : AttinyState :=
  { s with rtc_per := calculate_rtc_period s.current_bpm,
           activation_period_ms := (60000 / s.current_bpm) % U16 }

/-- `attiny/main.cpp` lines 256-276, one iteration of `main`'s `while (1)`
body up to (and not including) `enter_sleep()`: `wdt_reset()`, then
`process_button_presses()`, then drain `reconfigure_rtc` into
`update_rtc_period()`, then drain `activation_flag` into
`activate_output()`. -/
def attiny_loop_iter (s : AttinyState) (hinc hdec hb3 : Bool) : AttinyState :=
  let s1 := (attiny_process_button_presses s hinc hdec hb3).1
  let s2 := if s1.reconfigure_rtc then
      attiny_update_rtc_period { s1 with reconfigure_rtc := false }
    else s1
  if s2.activation_flag then { s2 with activation_flag := false } else s2

/-- The externally visible actions a main-loop iteration performs, in order:
watchdog acknowledge, button processing, wake-timer reprogramming, output
pulse, sleep entry. -/
inductive LoopAct
  | wdtAck
  | buttons
  | reconfigTimer
  | pulse
  | sleep
deriving DecidableEq, Repr

/-- Action trace of one ATTiny main-loop iteration (`attiny/main.cpp` lines
256-276): `wdt_reset()` at the top, button processing, the conditional
reprogram and pulse, then `enter_sleep()` which itself calls `wdt_reset()`
(line 137) immediately before `sleep_cpu()`. -/
def attiny_iter_trace (s : AttinyState) (hinc hdec hb3 : Bool) :
    List LoopAct :=
  [LoopAct.wdtAck, LoopAct.buttons]
  ++ (if (attiny_process_button_presses s hinc hdec hb3).1.reconfigure_rtc
      then [LoopAct.reconfigTimer] else [])
  ++ (if (attiny_process_button_presses s hinc hdec hb3).1.activation_flag
      then [LoopAct.pulse] else [])
  ++ [LoopAct.wdtAck, LoopAct.sleep]

/-- Action trace of one STM32 main-loop iteration (`stm32/main.cpp` lines
368-382): the conditional reprogram and pulse, then `enter_stop_mode()`.
Neither `main` nor any handler in `stm32/main.cpp` configures or reloads a
watchdog, so no `wdtAck` action exists anywhere in the build. -/
def stm32_iter_trace (s : Stm32State) : List LoopAct :=
  let s1 := if s.reconfigure_rtc then
      stm32_rtc_update { s with reconfigure_rtc := false }
    else s
  (if s.reconfigure_rtc then [LoopAct.reconfigTimer] else [])
  ++ (if s1.activation_flag then [LoopAct.pulse] else [])
  ++ [LoopAct.sleep]


/-- Closed form of the BPM after an increase press: add 5 and clamp at 155,
except that 155 itself is left untouched by the guard. -/
theorem bpm_inc_eq (b : Nat) :
    bpm_inc b = if b < 155 then min (b + 5) 155 else b := by
  by_cases h : b < 155
  · by_cases h2 : (b + 5) % 65536 > 155
    · simp [bpm_inc, rate_inc, BPM_MAX, BPM_STEP, U16, h, h2]
      omega
    · simp [bpm_inc, rate_inc, BPM_MAX, BPM_STEP, U16, h, h2]
      omega
  · simp [bpm_inc, rate_inc, BPM_MAX, h]

/-- Closed form of the BPM after a decrease press: subtract 5 and clamp at 40,
except that 40 itself is left untouched by the guard. -/
theorem bpm_dec_eq (b : Nat) :
    bpm_dec b = if b > 40 then max (b - 5) 40 else b := by
  by_cases h : b > 40
  · by_cases h2 : b - 5 < 40
    · simp [bpm_dec, rate_dec, BPM_MIN, BPM_STEP, h, h2]
      omega
    · simp [bpm_dec, rate_dec, BPM_MIN, BPM_STEP, h, h2]
      omega
  · simp [bpm_dec, rate_dec, BPM_MIN, h]

/-- The increase step runs its guarded block (and so marks
`reconfigure_rtc`) exactly when the BPM is below the cap. -/
theorem rate_inc_flag (b : Nat) : (rate_inc b).2.1 = decide (b < 155) := by
  by_cases h : b < 155
  · by_cases h2 : (b + 5) % 65536 > 155 <;>
      simp [rate_inc, BPM_MAX, BPM_STEP, U16, h, h2]
  · simp [rate_inc, BPM_MAX, h]

/-- The decrease step runs its guarded block (and so marks
`reconfigure_rtc`) exactly when the BPM is above the floor. -/
theorem rate_dec_flag (b : Nat) : (rate_dec b).2.1 = decide (b > 40) := by
  by_cases h : b > 40
  · by_cases h2 : b - 5 < 40 <;>
      simp [rate_dec, BPM_MIN, BPM_STEP, h, h2]
  · simp [rate_dec, BPM_MIN, h]

/-- First projections of the step triples agree with `bpm_inc` / `bpm_dec`. -/
theorem rate_inc_fst (b : Nat) : (rate_inc b).1 = bpm_inc b := rfl

/-- See `rate_inc_fst`. -/
theorem rate_dec_fst (b : Nat) : (rate_dec b).1 = bpm_dec b := rfl

/-- On a BPM that is a multiple of 5 inside [40,155], each step keeps the
invariant and the secondary clamp branch is dead. -/
theorem rate_inc_invariant (b : Nat) (h1 : 40 ≤ b) (h2 : b ≤ 155)
    (h5 : b % 5 = 0) :
    40 ≤ (rate_inc b).1 ∧ (rate_inc b).1 ≤ 155 ∧ (rate_inc b).1 % 5 = 0 ∧
      (rate_inc b).2.2 = false := by
  by_cases h : b < 155
  · have hmod : (b + 5) % 65536 = b + 5 := by omega
    have h2' : ¬((b + 5) % 65536 > 155) := by omega
    simp [rate_inc, BPM_MAX, BPM_STEP, U16, h, h2']
    omega
  · simp [rate_inc, BPM_MAX, h]
    omega

/-- See `rate_inc_invariant`. -/
theorem rate_dec_invariant (b : Nat) (h1 : 40 ≤ b) (h2 : b ≤ 155)
    (h5 : b % 5 = 0) :
    40 ≤ (rate_dec b).1 ∧ (rate_dec b).1 ≤ 155 ∧ (rate_dec b).1 % 5 = 0 ∧
      (rate_dec b).2.2 = false := by
  by_cases h : b > 40
  · have h2' : ¬(b - 5 < 40) := by omega
    simp [rate_dec, BPM_MIN, BPM_STEP, h, h2']
    omega
  · simp [rate_dec, BPM_MIN, h]
    omega

/-- The run invariant behind C9, generalized over the starting BPM. -/
theorem rate_run_inv (evs : List RateEv) :
    ∀ b, 40 ≤ b → b ≤ 155 → b % 5 = 0 →
      40 ≤ (rate_run b evs).1 ∧ (rate_run b evs).1 ≤ 155 ∧
        (rate_run b evs).1 % 5 = 0 ∧ (rate_run b evs).2 = false := by
  induction evs with
  | nil =>
    intro b h1 h2 h5
    exact ⟨h1, h2, h5, rfl⟩
  | cons e rest ih =>
    intro b h1 h2 h5
    cases e with
    | inc =>
      obtain ⟨k1, k2, k5, kc⟩ := rate_inc_invariant b h1 h2 h5
      obtain ⟨m1, m2, m5, mc⟩ := ih (rate_inc b).1 k1 k2 k5
      simp only [rate_run]
      exact ⟨m1, m2, m5, by rw [kc, mc, Bool.or_self]⟩
    | dec =>
      obtain ⟨k1, k2, k5, kc⟩ := rate_dec_invariant b h1 h2 h5
      obtain ⟨m1, m2, m5, mc⟩ := ih (rate_dec b).1 k1 k2 k5
      simp only [rate_run]
      exact ⟨m1, m2, m5, by rw [kc, mc, Bool.or_self]⟩

/-- Bounded enumeration behind C8. -/
theorem truncation_aux : ∀ b : Fin 156, 40 ≤ b.val →
    calculate_rtc_period b.val = 60000 / b.val * 1024 / 1000 ∧
    60000 / b.val * 1024 / 1000 < U16 ∧
    calculate_wakeup_interval_ms b.val = min (60000 / b.val) 1000 := by
  decide

/-- C3.  For every valid BPM, a +5 step followed by a -5 step returns to the
original value provided the first step was not clamped at the 155 cap
(`b + 5 ≤ 155`), and a -5 step followed by a +5 step returns to the original
value provided the first step was not clamped at the 40 floor (`45 ≤ b`). -/
theorem claim_C3_inc_dec_roundtrip (b : Nat) (hlo : 40 ≤ b) (hhi : b ≤ 155) :
    (b + 5 ≤ 155 → bpm_dec (bpm_inc b) = b) ∧
    (45 ≤ b → bpm_inc (bpm_dec b) = b) := by
  constructor
  · intro h
    rw [bpm_inc_eq, bpm_dec_eq]
    split_ifs <;> omega
  · intro h
    rw [bpm_dec_eq, bpm_inc_eq]
    split_ifs <;> omega

/-- Witness for C3 at BPM 100. -/
theorem claim_C3_witness :
    bpm_dec (bpm_inc 100) = 100 ∧ bpm_inc (bpm_dec 100) = 100 :=
  ⟨(claim_C3_inc_dec_roundtrip 100 (by decide) (by decide)).1 (by decide),
   (claim_C3_inc_dec_roundtrip 100 (by decide) (by decide)).2 (by decide)⟩

/-- C4.  For every valid current BPM and either ±5 request, the rate step is
a total function (no error channel: it always yields a result), the result
stays clamped inside [40,155], and the step marks `reconfigure_rtc` exactly
when the clamped result differs from the current BPM. -/
theorem claim_C4_set_rate_clamps (b : Nat) (hlo : 40 ≤ b) (hhi : b ≤ 155) :
    (40 ≤ (rate_inc b).1 ∧ (rate_inc b).1 ≤ 155 ∧
      ((rate_inc b).2.1 = true ↔ (rate_inc b).1 ≠ b)) ∧
    (40 ≤ (rate_dec b).1 ∧ (rate_dec b).1 ≤ 155 ∧
      ((rate_dec b).2.1 = true ↔ (rate_dec b).1 ≠ b)) := by
  constructor
  · rw [rate_inc_fst, rate_inc_flag, bpm_inc_eq]
    split_ifs with h <;> simp <;> omega
  · rw [rate_dec_fst, rate_dec_flag, bpm_dec_eq]
    split_ifs with h <;> simp <;> omega

/-- Witness for C4 at BPM 100. -/
theorem claim_C4_witness :
    ((rate_inc 100).2.1 = true ↔ (rate_inc 100).1 ≠ 100) ∧
    ((rate_dec 100).2.1 = true ↔ (rate_dec 100).1 ≠ 100) :=
  ⟨(claim_C4_set_rate_clamps 100 (by decide) (by decide)).1.2.2,
   (claim_C4_set_rate_clamps 100 (by decide) (by decide)).2.2.2⟩

/-- C8.  For every BPM in [40,155] step 5, both interval derivations are
plain functions of the BPM; the ATTiny tick count is the double truncation
`(60000 / bpm) * 1024 / 1000` with the final `uint16_t` cast exact (the
value fits, so no wrap), and the STM32 ms interval is `60000 / bpm` capped
at 1000. -/
theorem claim_C8_truncation (b : Nat) (h1 : 40 ≤ b) (h2 : b ≤ 155)
    (h5 : b % 5 = 0) :
    calculate_rtc_period b = 60000 / b * 1024 / 1000 ∧
    60000 / b * 1024 / 1000 < U16 ∧
    calculate_wakeup_interval_ms b = min (60000 / b) 1000 :=
  truncation_aux ⟨b, by omega⟩ h1

/-- Witness for C8 at BPM 100. -/
theorem claim_C8_witness :
    calculate_rtc_period 100 = 60000 / 100 * 1024 / 1000 :=
  (claim_C8_truncation 100 (by decide) (by decide) (by decide)).1

/-- C9.  From the default BPM 100, any sequence of increase/decrease events
keeps the BPM inside [40,155] and a multiple of 5, and the secondary clamp
assignments inside the two button branches never execute. -/
theorem claim_C9_reachable_invariant (evs : List RateEv) :
    40 ≤ (rate_run BPM_DEFAULT evs).1 ∧ (rate_run BPM_DEFAULT evs).1 ≤ 155 ∧
    (rate_run BPM_DEFAULT evs).1 % 5 = 0 ∧
    (rate_run BPM_DEFAULT evs).2 = false :=
  rate_run_inv evs BPM_DEFAULT (by decide) (by decide) (by decide)

/-- C7.  True-debounce behaviour of `process_button_presses`: with a raw
increase-press flag pending (and no other flags), a press whose pin still
reads pressed after the 50 ms settle window is forwarded to the rate-adjust
step exactly once and moves the BPM by exactly one (clamped) step, while a
transient pulse whose pin has been released by the sample point is discarded:
zero rate-adjust invocations and no state change beyond clearing the raw
flag.  The same holds for the decrease button (state `t`). -/
theorem claim_C7_true_debounce (s t : AttinyState) (hdec hb3 hinc hb3t : Bool)
    (hs1 : s.button_inc_pressed = true)
    (hs2 : s.button_dec_pressed = false)
    (hs3 : s.button3_pressed = false)
    (ht1 : t.button_inc_pressed = false)
    (ht2 : t.button_dec_pressed = true)
    (ht3 : t.button3_pressed = false) :
    ((attiny_process_button_presses s true hdec hb3).2 = 1 ∧
      (attiny_process_button_presses s true hdec hb3).1.current_bpm =
        bpm_inc s.current_bpm) ∧
    ((attiny_process_button_presses s false hdec hb3).2 = 0 ∧
      (attiny_process_button_presses s false hdec hb3).1 =
        { s with button_inc_pressed := false }) ∧
    ((attiny_process_button_presses t hinc true hb3t).2 = 1 ∧
      (attiny_process_button_presses t hinc true hb3t).1.current_bpm =
        bpm_dec t.current_bpm) ∧
    ((attiny_process_button_presses t hinc false hb3t).2 = 0 ∧
      (attiny_process_button_presses t hinc false hb3t).1 =
        { t with button_dec_pressed := false }) := by
  refine ⟨⟨?_, ?_⟩, ⟨?_, ?_⟩, ⟨?_, ?_⟩, ⟨?_, ?_⟩⟩
  · by_cases h : s.current_bpm < BPM_MAX <;>
      simp [attiny_process_button_presses, attiny_process_inc,
        attiny_process_dec, attiny_process_b3, hs1, hs2, hs3, h]
  · by_cases h : s.current_bpm < BPM_MAX
    · by_cases h2 : (s.current_bpm + BPM_STEP) % U16 > BPM_MAX <;>
        simp [attiny_process_button_presses, attiny_process_inc,
          attiny_process_dec, attiny_process_b3, bpm_inc, rate_inc,
          hs1, hs2, hs3, h, h2]
    · simp [attiny_process_button_presses, attiny_process_inc,
        attiny_process_dec, attiny_process_b3, bpm_inc, rate_inc,
        hs1, hs2, hs3, h]
  · simp [attiny_process_button_presses, attiny_process_inc,
      attiny_process_dec, attiny_process_b3, hs1, hs2, hs3]
  · simp [attiny_process_button_presses, attiny_process_inc,
      attiny_process_dec, attiny_process_b3, hs1, hs2, hs3]
  · by_cases h : t.current_bpm > BPM_MIN <;>
      simp [attiny_process_button_presses, attiny_process_inc,
        attiny_process_dec, attiny_process_b3, ht1, ht2, ht3, h]
  · by_cases h : t.current_bpm > BPM_MIN
    · by_cases h2 : t.current_bpm - BPM_STEP < BPM_MIN <;>
        simp [attiny_process_button_presses, attiny_process_inc,
          attiny_process_dec, attiny_process_b3, bpm_dec, rate_dec,
          ht1, ht2, ht3, h, h2]
    · simp [attiny_process_button_presses, attiny_process_inc,
        attiny_process_dec, attiny_process_b3, bpm_dec, rate_dec,
        ht1, ht2, ht3, h]
  · simp [attiny_process_button_presses, attiny_process_inc,
      attiny_process_dec, attiny_process_b3, ht1, ht2, ht3]
  · simp [attiny_process_button_presses, attiny_process_inc,
      attiny_process_dec, attiny_process_b3, ht1, ht2, ht3]

/-- C10.  Processing a press of the reserved third button is a frame
operation on both builds: only the button's own debounce bookkeeping
(`button3_pressed` on the ATTiny, `button3_last_interrupt_time` on the
STM32) may change; BPM, `reconfigure_rtc`, `activation_flag`, the
programmed wake interval and everything else are untouched. -/
theorem claim_C10_button3_frame :
    (∀ (s : AttinyState) (held : Bool),
      (attiny_process_b3 s held).current_bpm = s.current_bpm ∧
      (attiny_process_b3 s held).reconfigure_rtc = s.reconfigure_rtc ∧
      (attiny_process_b3 s held).activation_flag = s.activation_flag ∧
      (attiny_process_b3 s held).rtc_per = s.rtc_per ∧
      (attiny_process_b3 s held).activation_period_ms =
        s.activation_period_ms ∧
      (attiny_process_b3 s held).rtc_counter = s.rtc_counter ∧
      (attiny_process_b3 s held).button_inc_pressed = s.button_inc_pressed ∧
      (attiny_process_b3 s held).button_dec_pressed = s.button_dec_pressed) ∧
    (∀ (s : Stm32State) (pending : Bool),
      (stm32_exti1_b3 s pending).current_bpm = s.current_bpm ∧
      (stm32_exti1_b3 s pending).reconfigure_rtc = s.reconfigure_rtc ∧
      (stm32_exti1_b3 s pending).activation_flag = s.activation_flag ∧
      (stm32_exti1_b3 s pending).wucksel = s.wucksel ∧
      (stm32_exti1_b3 s pending).wutr = s.wutr ∧
      (stm32_exti1_b3 s pending).activation_period_ms =
        s.activation_period_ms ∧
      (stm32_exti1_b3 s pending).millis_counter = s.millis_counter ∧
      (stm32_exti1_b3 s pending).last_activation_time =
        s.last_activation_time ∧
      (stm32_exti1_b3 s pending).button_inc_last = s.button_inc_last ∧
      (stm32_exti1_b3 s pending).button_dec_last = s.button_dec_last) := by
  constructor
  · intro s held
    unfold attiny_process_b3
    split_ifs <;> simp
  · intro s pending
    unfold stm32_exti1_b3
    split_ifs <;> simp

/-- ATTiny reset state: the globals of `attiny/main.cpp` lines 47-61 with
`RTC.PER` as programmed by `rtc_init` (line 83). -/
def attiny_state0 : AttinyState :=
  { current_bpm := BPM_DEFAULT
    activation_period_ms := 60000 / BPM_DEFAULT
    rtc_per := calculate_rtc_period BPM_DEFAULT
    activation_flag := false
    rtc_counter := 0
    reconfigure_rtc := false
    button_inc_pressed := false
    button_dec_pressed := false
    button3_pressed := false }

/-- Any button branch either marks `reconfigure_rtc` or leaves both the BPM
and the flag alone (increase branch). -/
theorem attiny_process_inc_marks (s : AttinyState) (held : Bool) :
    (attiny_process_inc s held).1.reconfigure_rtc = true ∨
    ((attiny_process_inc s held).1.current_bpm = s.current_bpm ∧
      (attiny_process_inc s held).1.reconfigure_rtc = s.reconfigure_rtc) := by
  by_cases hf : s.button_inc_pressed <;>
  by_cases hh : held <;>
  by_cases hb : s.current_bpm < BPM_MAX <;>
  by_cases h2 : (s.current_bpm + BPM_STEP) % U16 > BPM_MAX <;>
  simp [attiny_process_inc, hf, hh, hb, h2]

/-- See `attiny_process_inc_marks` (decrease branch). -/
theorem attiny_process_dec_marks (s : AttinyState) (held : Bool) :
    (attiny_process_dec s held).1.reconfigure_rtc = true ∨
    ((attiny_process_dec s held).1.current_bpm = s.current_bpm ∧
      (attiny_process_dec s held).1.reconfigure_rtc = s.reconfigure_rtc) := by
  by_cases hf : s.button_dec_pressed <;>
  by_cases hh : held <;>
  by_cases hb : s.current_bpm > BPM_MIN <;>
  by_cases h2 : s.current_bpm - BPM_STEP < BPM_MIN <;>
  simp [attiny_process_dec, hf, hh, hb, h2]

/-- The increase branch never clears a pending `reconfigure_rtc`. -/
theorem attiny_process_inc_mono (s : AttinyState) (held : Bool)
    (h : s.reconfigure_rtc = true) :
    (attiny_process_inc s held).1.reconfigure_rtc = true := by
  by_cases hf : s.button_inc_pressed <;>
  by_cases hh : held <;>
  by_cases hb : s.current_bpm < BPM_MAX <;>
  by_cases h2 : (s.current_bpm + BPM_STEP) % U16 > BPM_MAX <;>
  simp [attiny_process_inc, hf, hh, hb, h2, h]

/-- The decrease branch never clears a pending `reconfigure_rtc`. -/
theorem attiny_process_dec_mono (s : AttinyState) (held : Bool)
    (h : s.reconfigure_rtc = true) :
    (attiny_process_dec s held).1.reconfigure_rtc = true := by
  by_cases hf : s.button_dec_pressed <;>
  by_cases hh : held <;>
  by_cases hb : s.current_bpm > BPM_MIN <;>
  by_cases h2 : s.current_bpm - BPM_STEP < BPM_MIN <;>
  simp [attiny_process_dec, hf, hh, hb, h2, h]

/-- The reserved branch changes neither the BPM nor `reconfigure_rtc`. -/
theorem attiny_process_b3_frame (s : AttinyState) (held : Bool) :
    (attiny_process_b3 s held).current_bpm = s.current_bpm ∧
    (attiny_process_b3 s held).reconfigure_rtc = s.reconfigure_rtc := by
  by_cases hf : s.button3_pressed <;>
  by_cases hh : held <;>
  simp [attiny_process_b3, hf, hh]

/-- A `process_button_presses` call that moves the BPM leaves
`reconfigure_rtc` set. -/
theorem attiny_process_marks (s : AttinyState) (h1 h2 h3 : Bool)
    (hne : (attiny_process_button_presses s h1 h2 h3).1.current_bpm ≠
      s.current_bpm) :
    (attiny_process_button_presses s h1 h2 h3).1.reconfigure_rtc = true := by
  simp only [attiny_process_button_presses]
  obtain ⟨hb3b, hb3r⟩ := attiny_process_b3_frame
    (attiny_process_dec (attiny_process_inc s h1).1 h2).1 h3
  simp only [attiny_process_button_presses] at hne
  rcases attiny_process_dec_marks (attiny_process_inc s h1).1 h2 with hd | hd
  · rw [hb3r, hd]
  · rcases attiny_process_inc_marks s h1 with hi | hi
    · rw [hb3r, hd.2]
      exact hi
    · exfalso
      exact hne (by rw [hb3b, hd.1, hi.1])

/-- The main-loop iteration does not move the BPM after button processing. -/
theorem attiny_loop_iter_bpm (s : AttinyState) (h1 h2 h3 : Bool) :
    (attiny_loop_iter s h1 h2 h3).current_bpm =
      (attiny_process_button_presses s h1 h2 h3).1.current_bpm := by
  simp only [attiny_loop_iter]
  split_ifs <;> simp [attiny_update_rtc_period]

/-- If button processing left `reconfigure_rtc` set, the iteration's drain
step reprograms `RTC.PER` from the current BPM before the sleep call. -/
theorem attiny_loop_iter_programs (s : AttinyState) (h1 h2 h3 : Bool)
    (hrc : (attiny_process_button_presses s h1 h2 h3).1.reconfigure_rtc =
      true) :
    (attiny_loop_iter s h1 h2 h3).rtc_per =
      calculate_rtc_period (attiny_loop_iter s h1 h2 h3).current_bpm := by
  simp only [attiny_loop_iter, hrc, if_true]
  split_ifs <;> simp [attiny_update_rtc_period]

/-- Counterpart of `attiny_process_inc_marks` for the STM32 increase EXTI. -/
theorem stm32_exti13_marks (s : Stm32State) (p : Bool) :
    (stm32_exti13_inc s p).reconfigure_rtc = true ∨
    ((stm32_exti13_inc s p).current_bpm = s.current_bpm ∧
      (stm32_exti13_inc s p).reconfigure_rtc = s.reconfigure_rtc) := by
  by_cases hp : p <;>
  by_cases hdb : (s.millis_counter + U32 - s.button_inc_last) % U32 > 200 <;>
  by_cases hb : s.current_bpm < BPM_MAX <;>
  by_cases h2 : (s.current_bpm + BPM_STEP) % U16 > BPM_MAX <;>
  simp [stm32_exti13_inc, hp, hdb, hb, h2]

/-- Counterpart of `attiny_process_dec_marks` for the STM32 decrease EXTI. -/
theorem stm32_exti0_marks (s : Stm32State) (p : Bool) :
    (stm32_exti0_dec s p).reconfigure_rtc = true ∨
    ((stm32_exti0_dec s p).current_bpm = s.current_bpm ∧
      (stm32_exti0_dec s p).reconfigure_rtc = s.reconfigure_rtc) := by
  by_cases hp : p <;>
  by_cases hdb : (s.millis_counter + U32 - s.button_dec_last) % U32 > 200 <;>
  by_cases hb : s.current_bpm > BPM_MIN <;>
  by_cases h2 : s.current_bpm - BPM_STEP < BPM_MIN <;>
  simp [stm32_exti0_dec, hp, hdb, hb, h2]

/-- The STM32 decrease EXTI never clears a pending `reconfigure_rtc`. -/
theorem stm32_exti0_mono (s : Stm32State) (p : Bool)
    (h : s.reconfigure_rtc = true) :
    (stm32_exti0_dec s p).reconfigure_rtc = true := by
  by_cases hp : p <;>
  by_cases hdb : (s.millis_counter + U32 - s.button_dec_last) % U32 > 200 <;>
  by_cases hb : s.current_bpm > BPM_MIN <;>
  by_cases h2 : s.current_bpm - BPM_STEP < BPM_MIN <;>
  simp [stm32_exti0_dec, hp, hdb, hb, h2, h]

/-- The reserved EXTI1 branch changes neither the BPM nor
`reconfigure_rtc`. -/
theorem stm32_exti1_frame (s : Stm32State) (p : Bool) :
    (stm32_exti1_b3 s p).current_bpm = s.current_bpm ∧
    (stm32_exti1_b3 s p).reconfigure_rtc = s.reconfigure_rtc := by
  by_cases hp : p <;>
  by_cases hdb : (s.millis_counter + U32 - s.button3_last) % U32 > 200 <;>
  simp [stm32_exti1_b3, hp, hdb]

/-- The STM32 loop iteration does not move the BPM. -/
theorem stm32_loop_iter_bpm (s : Stm32State) :
    (stm32_loop_iter s).current_bpm = s.current_bpm := by
  simp only [stm32_loop_iter]
  split_ifs <;> simp [stm32_rtc_update]

/-- If `reconfigure_rtc` is set when the STM32 loop body runs, the drain step
reprograms (WUCKSEL, WUTR) from the current BPM before the sleep call. -/
theorem stm32_loop_iter_programs (s : Stm32State)
    (hrc : s.reconfigure_rtc = true) :
    ((stm32_loop_iter s).wucksel, (stm32_loop_iter s).wutr) =
      stm32_wutr_config (calculate_wakeup_interval_ms
        (stm32_loop_iter s).current_bpm) := by
  simp only [stm32_loop_iter, hrc, if_true]
  split_ifs <;> simp [stm32_rtc_update]

/-- C5.  In both builds, whenever a main-loop cycle changes the BPM, the wake
timer's programmed interval (`RTC.PER` on the ATTiny; the (WUCKSEL, WUTR)
pair on the STM32) equals the interval derived from the new BPM before that
cycle's sleep call: the programmed interval is never left stale across a
sleep after a rate change. -/
theorem claim_C5_no_stale_interval :
    (∀ (s : AttinyState) (h1 h2 h3 : Bool),
      (attiny_loop_iter s h1 h2 h3).current_bpm ≠ s.current_bpm →
      (attiny_loop_iter s h1 h2 h3).rtc_per =
        calculate_rtc_period (attiny_loop_iter s h1 h2 h3).current_bpm) ∧
    (∀ (s : Stm32State) (p1 p2 p3 : Bool),
      (stm32_cycle s p1 p2 p3).current_bpm ≠ s.current_bpm →
      ((stm32_cycle s p1 p2 p3).wucksel, (stm32_cycle s p1 p2 p3).wutr) =
        stm32_wutr_config (calculate_wakeup_interval_ms
          (stm32_cycle s p1 p2 p3).current_bpm)) := by
  constructor
  · intro s h1 h2 h3 hne
    apply attiny_loop_iter_programs
    apply attiny_process_marks
    rw [← attiny_loop_iter_bpm s h1 h2 h3]
    exact hne
  · intro s p1 p2 p3 hne
    unfold stm32_cycle at *
    apply stm32_loop_iter_programs
    obtain ⟨hfb, hfr⟩ := stm32_exti1_frame
      (stm32_exti0_dec (stm32_exti13_inc s p1) p2) p3
    rw [hfr]
    rcases stm32_exti0_marks (stm32_exti13_inc s p1) p2 with hd | hd
    · exact hd
    · rcases stm32_exti13_marks s p1 with hi | hi
      · rw [hd.2]
        exact hi
      · exfalso
        apply hne
        rw [stm32_loop_iter_bpm, hfb, hd.1, hi.1]

/-- Witness for C5: from reset with a pending increase press, the iteration
moves the BPM to 105 and reprograms the wake interval before sleeping. -/
theorem claim_C5_witness :
    (attiny_loop_iter { attiny_state0 with button_inc_pressed := true }
      true true true).rtc_per =
      calculate_rtc_period (attiny_loop_iter
        { attiny_state0 with button_inc_pressed := true }
        true true true).current_bpm :=
  claim_C5_no_stale_interval.1
    { attiny_state0 with button_inc_pressed := true } true true true
    (by decide)

/-- C6.  Watchdog acknowledgement: every ATTiny main-loop iteration performs
a watchdog acknowledge (`wdt_reset()`, line 258) and performs another one
immediately before the sleep entry (`enter_sleep()`, line 137), so no
iteration reaches the sleep call without both; the STM32 main loop, by
contrast, never acknowledges any watchdog: no iteration trace of
`stm32/main.cpp`'s `main` contains a watchdog acknowledge at all, although
the build's own documentation promises an IWDG serviced in the main loop and
before each sleep cycle. -/
theorem claim_C6_watchdog_ack :
    (∀ (s : AttinyState) (h1 h2 h3 : Bool),
      LoopAct.wdtAck ∈ attiny_iter_trace s h1 h2 h3 ∧
      ∃ pre, attiny_iter_trace s h1 h2 h3 =
        pre ++ [LoopAct.wdtAck, LoopAct.sleep]) ∧
    (∀ s : Stm32State, LoopAct.wdtAck ∉ stm32_iter_trace s) := by
  constructor
  · intro s h1 h2 h3
    constructor
    · simp [attiny_iter_trace]
    · refine ⟨[LoopAct.wdtAck, LoopAct.buttons]
        ++ (if (attiny_process_button_presses s h1 h2 h3).1.reconfigure_rtc
            then [LoopAct.reconfigTimer] else [])
        ++ (if (attiny_process_button_presses s h1 h2 h3).1.activation_flag
            then [LoopAct.pulse] else []), ?_⟩
      simp [attiny_iter_trace, List.append_assoc]
  · intro s
    simp only [stm32_iter_trace]
    split_ifs <;> simp

/-- Once the accumulator's quantum covers the whole period, it is always
zero: every tick reaches the period immediately. -/
theorem coarse_acc_of_le (w p : Nat) (h : p ≤ w) :
    ∀ n, coarse_acc w p n = 0
  | 0 => rfl
  | n + 1 => by
    rw [coarse_acc_succ, coarse_acc_of_le w p h n, if_pos (by omega)]

/-- Counterexample to C1 as stated: the dual-mode policy does not describe
the ATTiny build.  At BPM 40 (`period_ms = 1500 >= 1000`) the claim requires
the wake timer to run at a fixed ~1000 ms cadence — at the ATTiny RTC's
1024 Hz tick rate that cadence is 1024 ticks, exactly what
`calculate_rtc_period` yields for a 1000 ms period (BPM 60).  Instead the
ATTiny programs the full activation period, 1536 ticks (~1500 ms), and its
RTC interrupt (`ISR(RTC_CNT_vect)`) marks an activation on every wake tick
with no accumulation. -/
theorem claim_C1_counterexample :
    calculate_rtc_period 40 = 1536 ∧
    calculate_rtc_period 40 ≠ 1024 ∧
    calculate_rtc_period 60 = 1024 ∧
    (attiny_rtc_isr { attiny_state0 with
      current_bpm := 40 }).activation_flag = true :=
  ⟨by decide, by decide, by decide, rfl⟩

/-- C1 (amended).  The dual-mode wake policy holds on the STM32 build: for
BPM with `period_ms = 60000 / bpm < 1000` the derived wake interval equals
`period_ms` itself and every wake tick marks an activation, while for
`period_ms >= 1000` (BPM <= 60) the derived wake interval is the fixed
1000 ms (programmed as the 1 Hz ck_spre clock, WUTR = 0) and a wake tick
marks an activation exactly when the accumulated elapsed time reaches
`period_ms`.  The ATTiny build instead has a single mode: for every BPM in
[40,155] the wake timer is programmed at the activation cadence
(`floor(period_ms * 1024 / 1000)` ticks) and every wake tick marks an
activation. -/
theorem claim_C1_dual_mode (bpm : Nat) (h1 : 40 ≤ bpm) (h2 : bpm ≤ 155) :
    (60000 / bpm < 1000 →
      calculate_wakeup_interval_ms bpm = 60000 / bpm ∧
      ∀ n, stm32_tick_fires (stm32_rtc_state0 bpm) n = true) ∧
    (1000 ≤ 60000 / bpm →
      calculate_wakeup_interval_ms bpm = 1000 ∧
      stm32_wutr_config (calculate_wakeup_interval_ms bpm) = (4, 0) ∧
      (∀ n, stm32_tick_fires (stm32_rtc_state0 bpm) n = true ↔
        60000 / bpm ≤ coarse_acc 1000 (60000 / bpm) n + 1000)) ∧
    (calculate_rtc_period bpm = 60000 / bpm * 1024 / 1000 ∧
      ∀ s : AttinyState, (attiny_rtc_isr s).activation_flag = true) := by
  have hple : 60000 / bpm ≤ 1500 := by
    have : 60000 / bpm ≤ 60000 / 40 := Nat.div_le_div_left h1 (by omega)
    omega
  refine ⟨?_, ?_, ?_, ?_⟩
  · intro hf
    have hw : calculate_wakeup_interval_ms bpm = 60000 / bpm := by
      rw [calculate_wakeup_interval_ms_eq, if_pos hf]
    refine ⟨hw, ?_⟩
    intro n
    rw [stm32_fires_acc bpm h1 h2 n, hw,
      coarse_acc_of_le (60000 / bpm) (60000 / bpm) (le_refl _) n]
    simp
  · intro hc
    have hw : calculate_wakeup_interval_ms bpm = 1000 := by
      rw [calculate_wakeup_interval_ms_eq, if_neg (by omega)]
    refine ⟨hw, by rw [hw]; decide, ?_⟩
    intro n
    rw [stm32_fires_acc bpm h1 h2 n, hw]
    simp only [ge_iff_le, decide_eq_true_eq]
  · rw [calculate_rtc_period_eq]
    apply Nat.mod_eq_of_lt
    have h4 : 60000 / bpm * 1024 ≤ 1500 * 1024 :=
      Nat.mul_le_mul_right 1024 hple
    have h5 : 60000 / bpm * 1024 / 1000 ≤ 1500 * 1024 / 1000 :=
      Nat.div_le_div_right h4
    unfold U16
    omega
  · intro s
    rfl

/-- Witness for C1 at BPM 100 (fast mode) and BPM 40 (coarse mode). -/
theorem claim_C1_witness :
    stm32_tick_fires (stm32_rtc_state0 100) 3 = true ∧
    stm32_wutr_config (calculate_wakeup_interval_ms 40) = (4, 0) :=
  ⟨((claim_C1_dual_mode 100 (by decide) (by decide)).1 (by decide)).2 3,
   ((claim_C1_dual_mode 40 (by decide) (by decide)).2.1 (by decide)).2.1⟩

/-- At BPM 40 the accumulator alternates between 0 and 1000. -/
theorem coarse_acc_bpm40 (n : Nat) :
    coarse_acc 1000 1500 n = 1000 * (n % 2) := by
  induction n with
  | zero => rfl
  | succ n ih =>
    rw [coarse_acc_succ, ih]
    split
    · omega
    · omega

/-- At BPM 40, a wake tick marks an activation exactly on the
even-numbered ticks (odd zero-based index). -/
theorem stm32_fires_bpm40 (n : Nat) :
    stm32_tick_fires (stm32_rtc_state0 40) n = decide (n % 2 = 1) := by
  have hw : calculate_wakeup_interval_ms 40 = 1000 := by decide
  have hp : (60000 : Nat) / 40 = 1500 := by norm_num
  rw [stm32_fires_acc 40 (by decide) (by decide) n, hw, hp, coarse_acc_bpm40]
  rcases Nat.mod_two_eq_zero_or_one n with h | h <;> rw [h] <;> decide

/-- Exactly every other index is odd. -/
theorem countP_odd (k : Nat) :
    (List.range (2 * k)).countP (fun n => decide (n % 2 = 1)) = k := by
  induction k with
  | zero => rfl
  | succ k ih =>
    have h2 : 2 * (k + 1) = 2 * k + 1 + 1 := by ring
    have e1 : (2 * k) % 2 = 0 := by omega
    have e2 : (2 * k + 1) % 2 = 1 := by omega
    rw [h2, List.range_succ, List.countP_append, List.range_succ,
      List.countP_append, ih]
    simp [List.countP_cons, e1, e2]

/-- C2.  At BPM 40 the wake quantum is 1000 ms and the activation period is
1500 ms; starting from reset, an activation fires exactly on every 2nd tick
(zero-based odd indices), so any window of `2 * k` ticks holds exactly `k`
activations over `2000 * k` elapsed milliseconds: the cumulative elapsed
time per activation is 2000 ms, which lies within one 1000 ms tick of the
nominal 1500 ms average the claim allows (and every gap between activations
is 2 ticks, an instance of "every 2nd or 3rd tick"). -/
theorem claim_C2_bpm40_coarse_average :
    calculate_wakeup_interval_ms 40 = 1000 ∧
    60000 / 40 = 1500 ∧
    (∀ n, stm32_tick_fires (stm32_rtc_state0 40) n = true ↔ n % 2 = 1) ∧
    (∀ k, (List.range (2 * k)).countP
      (fun n => stm32_tick_fires (stm32_rtc_state0 40) n) = k) ∧
    (∀ k, (stm32_rtc_run (stm32_rtc_state0 40) (2 * k)).millis_counter =
      2000 * k % U32) ∧
    (∀ k, 1500 * k ≤ 2000 * k + 1000 * k ∧
      2000 * k ≤ 1500 * k + 1000 * k) := by
  refine ⟨by decide, by norm_num, ?_, ?_, ?_, ?_⟩
  · intro n
    rw [stm32_fires_bpm40]
    simp
  · intro k
    have hf : (fun n => stm32_tick_fires (stm32_rtc_state0 40) n) =
        (fun n => decide (n % 2 = 1)) := funext stm32_fires_bpm40
    rw [hf, countP_odd]
  · intro k
    have hw : calculate_wakeup_interval_ms 40 = 1000 := by decide
    have hm := (stm32_run_inv 40 (by decide) (by decide) (2 * k)).2.2.1
    rw [hm, hw]
    have : 1000 * (2 * k) = 2000 * k := by ring
    rw [this]
  · intro k
    omega

/-- Witness for C7: from reset with a pending, confirmed increase press the
call performs exactly one rate-adjust invocation and moves 100 to 105. -/
theorem claim_C7_witness :
    (attiny_process_button_presses
      { attiny_state0 with button_inc_pressed := true } true false false).2 =
      1 ∧
    (attiny_process_button_presses
      { attiny_state0 with button_inc_pressed := true }
      true false false).1.current_bpm =
      bpm_inc ({ attiny_state0 with
        button_inc_pressed := true }).current_bpm :=
  (claim_C7_true_debounce
    { attiny_state0 with button_inc_pressed := true }
    { attiny_state0 with button_dec_pressed := true }
    false false false false rfl rfl rfl rfl rfl rfl).1
